import Mathlib

/-!
Shallow embedding of the data layer of the werewolf assistant
(`app/models.py`): the SQLAlchemy models `User`, `Room`, `Player`, `Game`,
`Vote` and their derived properties and mutating operations.

Modelling conventions:
* Nullable database columns become `Option` fields.
* Python truthiness of a nullable boolean column (`if p.is_host:`) is
  `(· == some true)`; of a nullable integer column (`if p.seat:`) it is
  "is `some s` with `s ≠ 0`".
* `datetime` values are opaque `Nat` timestamps; `datetime.now()` becomes an
  explicit `now` argument.
* Code that can raise returns `Except String α`; the string carries the
  Python exception class that the source would raise.
* The `current_round` column is declared a string but the code also stores
  the integer `-1` in it (Python is untyped), so it is modelled as an
  `Option RoundVal` with `RoundVal` a string/integer sum.
* `lazy` relationship queries (`.first()`, `.filter_by(...)`) become `List`
  operations; `Player.query` (the global player table) is passed explicitly
  as a `db : List Player` argument where the source consults it.
-/

/-- A value stored in `Game.current_round`: the column is a string column,
but `Game.end` stores the integer `-1` in it. -/
inductive RoundVal where
  | str (s : String)
  | int (n : Int)
deriving DecidableEq, Repr

/-- Python truthiness of a `RoundVal`: the empty string and `0` are falsy. -/
def roundTruthy : RoundVal → Bool
  | RoundVal.str s => s ≠ ""
  | RoundVal.int n => n ≠ 0

/-- Python truthiness of the nullable `current_round` column. -/
def optRoundTruthy : Option RoundVal → Bool
  | none => false
  | some r => roundTruthy r

/-- Model of `Vote` model: one player's choice for one round of one game
(`vote_for` seat number, `round` label, foreign keys). -/
structure Vote where
  id : Int
  game_id : Option Int
  player_id : Option Int
  vote_for : Int
  round : String
deriving DecidableEq, Repr

/-- Model of `Player` model: a user's participation in one room (seat, host flag,
alive status, vote capability, owned votes). -/
structure Player where
  id : Int
  user_id : Int
  room_id : Int
  is_host : Option Bool
  character : Option String
  seat : Option Int
  is_dead : Bool
  capable_for_vote : Bool
  votes : List Vote
deriving DecidableEq, Repr

/-- Python truthiness of `p.is_host` (nullable boolean column):
only `some true` is truthy. -/
def isHostTruthy (p : Player) : Bool := p.is_host == some true

/-- Python truthiness of the nullable `seat` column: `None` and `0` are
falsy. -/
def seatTruthy : Option Int → Bool
  | none => false
  | some s => s ≠ 0

/-- Model of `Game` model: lifecycle of a playthrough (round pointer, active flag,
timestamps). -/
structure Game where
  id : Int
  room_id : Int
  template : String
  current_round : Option RoundVal
  is_active : Bool
  start_time : Nat
  finish_time : Option Nat
  votes : List Vote
deriving DecidableEq, Repr

/-- Model of `Game.end`: stamps `finish_time` with the current time, deactivates the
game and stores the sentinel `-1` in `current_round`. -/
def Game.end (now : Nat) (g : Game) : Game :=
  { g with finish_time := some now, is_active := false,
           current_round := some (RoundVal.int (-1)) }

/-- The fixed placeholder string returned by `Game.status` when
`current_round` is falsy ("awaiting god's instruction"). -/
def awaitingInstruction : RoundVal := RoundVal.str "等待上帝指令"

/-- Model of `Game.status`: returns `current_round` when truthy, else the fixed
placeholder string. -/
def Game.status (g : Game) : RoundVal :=
  match g.current_round with
  | some r => if roundTruthy r then r else awaitingInstruction
  | none => awaitingInstruction

/-- Model of `Vote.validate`: zeroes `vote_for` when it is `<= 0` or `>= 13`. -/
def Vote.validate (v : Vote) : Vote :=
  if v.vote_for ≤ 0 ∨ v.vote_for ≥ 13 then { v with vote_for := 0 } else v

/-- Model of `Vote.vote_from`: re-queries the global player table by `player_id` and
returns that player's (nullable) seat; raises an `AttributeError` when no
player row matches (`.first()` returned `None`). -/
def Vote.vote_from (db : List Player) (v : Vote) : Except String (Option Int) :=
  match db.find? (fun q => v.player_id == some q.id) with
  | some q => Except.ok q.seat
  | none => Except.error "AttributeError: NoneType object has no attribute seat"

/-- Model of `Room` model: a named lobby owning one (nullable) game and a list of
players. -/
structure Room where
  id : Int
  name : String
  game : Option Game
  players : List Player
deriving DecidableEq, Repr

/-- The loop body of `Room.host`: return the first player whose `is_host`
is truthy; the loop's `else` clause raises `ValueError` when none is found. -/
def findHost : List Player → Except String Player
  | [] => Except.error "ValueError: No host find"
  | p :: ps => if isHostTruthy p then Except.ok p else findHost ps

/-- Model of `Room.host`: scans `players` for the first host, raising when absent. -/
def Room.host (r : Room) : Except String Player :=
  findHost r.players

/-- Model of `Room.normal_players`: the players whose `is_host` is not truthy. -/
def Room.normal_players (r : Room) : List Player :=
  r.players.filter (fun p => ! isHostTruthy p)

/-- Model of `Room.available_seats`: starts from `{1..12}` and removes the seat of
every normal player whose seat is truthy.  The source returns the set as an
unordered list; the set itself is modelled. -/
def Room.available_seats (r : Room) : Finset Int :=
  r.normal_players.foldl
    (fun seats p =>
      match p.seat with
      | some s => if s ≠ 0 then seats.erase s else seats
      | none => seats)
    (Finset.Icc 1 12)

/-- Model of `Room.seated_players`: non-host players whose seat is truthy. -/
def Room.seated_players (r : Room) : List Player :=
  r.players.filter (fun p => ! isHostTruthy p && seatTruthy p.seat)

/-- Model of `Room.is_full`: the source body is `len(self.seats == 0)`, and `Room`
has no `seats` attribute, so evaluating the property raises an
`AttributeError` before anything else happens. -/
def Room.is_full (_ : Room) : Except String Bool :=
  Except.error "AttributeError: Room object has no attribute seats"

/-- Model of `Room.survivals`: seated players not flagged dead. -/
def Room.survivals (r : Room) : List Player :=
  r.seated_players.filter (fun p => ! p.is_dead)

/-- One `{vote_from, vote_for}` entry of `Room.view_vote_results`. -/
structure VoteResult where
  vote_from : Option Int
  vote_for : Int
deriving DecidableEq, Repr

/-- The loop of `Room.view_vote_results` over the seated players: for each
player take their first vote of the given round (raising an
`AttributeError` when `first()` returned `None`), resolve `vote_from`
through the global table, and collect `{vote_from, vote_for}`. -/
def viewVoteResultsAux (db : List Player) (round_name : String) :
    List Player → Except String (List VoteResult)
  | [] => Except.ok []
  | p :: ps =>
    match p.votes.find? (fun v => v.round == round_name) with
    | none => Except.error "AttributeError: NoneType object has no attribute vote_from"
    | some v =>
      match Vote.vote_from db v with
      | Except.error e => Except.error e
      | Except.ok vf =>
        match viewVoteResultsAux db round_name ps with
        | Except.error e => Except.error e
        | Except.ok rest => Except.ok ({ vote_from := vf, vote_for := v.vote_for } :: rest)

/-- Model of `Room.view_vote_results(round_name)`: the loop above over
`seated_players`. -/
def Room.view_vote_results (db : List Player) (r : Room) (round_name : String) :
    Except String (List VoteResult) :=
  viewVoteResultsAux db round_name r.seated_players

/-- Model of `User` model: identity, credential hash and the `role` relationship to
the user's `Player` rows. -/
structure User where
  id : Int
  username : String
  email : String
  password_hash : String
  role : List Player
deriving DecidableEq, Repr

/-- Model of `User.is_host`: `self.role.first().is_host == True`; when the user has
no `Player` rows, `first()` returns `None` and the attribute access raises. -/
def User.is_host (u : User) : Except String Bool :=
  match u.role.head? with
  | some p => Except.ok (p.is_host == some true)
  | none => Except.error "AttributeError: NoneType object has no attribute is_host"

/-- The set of seats occupied by normal players with a (truthy) seat,
stated directly as a set for the partition property. -/
def Room.occupiedSeats (r : Room) : Finset Int :=
  (r.normal_players.filterMap
    (fun p =>
      match p.seat with
      | some s => if s ≠ 0 then some s else none
      | none => none)).toFinset

/-! Concrete fixtures used by witnesses and counterexamples. -/

/-- A normal seated player with the given id, seat and votes. -/
def mkSeated (i : Int) (s : Int) (vs : List Vote) : Player :=
  { id := i, user_id := i, room_id := 1, is_host := some false,
    character := none, seat := some s, is_dead := false,
    capable_for_vote := false, votes := vs }

/-- A host player (no seat, no votes). -/
def hostP : Player :=
  { id := 9, user_id := 9, room_id := 1, is_host := some true,
    character := none, seat := none, is_dead := false,
    capable_for_vote := false, votes := [] }

/-- A room whose normal players sit exactly at seats 1, 3 and 5. -/
def room135 : Room :=
  { id := 1, name := "r", game := none,
    players := [mkSeated 1 1 [], mkSeated 2 3 [], mkSeated 3 5 []] }

/-- A room with no players at all (hence no host). -/
def emptyRoom : Room :=
  { id := 3, name := "e", game := none, players := [] }

/-- A game that has not yet been given a round. -/
def game0 : Game :=
  { id := 1, room_id := 1, template := "t", current_round := none,
    is_active := true, start_time := 0, finish_time := none, votes := [] }

/-- A user with no associated players. -/
def user0 : User :=
  { id := 1, username := "u", email := "e", password_hash := "h", role := [] }

/-! Helper lemmas. -/

/-- Scanning a player list finds the first truthy host when one exists. -/
lemma findHost_eq_ok_of_exists (ps : List Player)
    (hex : ∃ p ∈ ps, isHostTruthy p = true) :
    ∃ l₁ p l₂, ps = l₁ ++ p :: l₂ ∧ isHostTruthy p = true ∧
      (∀ q ∈ l₁, isHostTruthy q = false) ∧ findHost ps = Except.ok p := by
  induction ps with
  | nil => simp at hex
  | cons a ps ih =>
    by_cases ha : isHostTruthy a = true
    · exact ⟨[], a, ps, rfl, ha, by simp, by simp [findHost, ha]⟩
    · have hex' : ∃ p ∈ ps, isHostTruthy p = true := by
        rcases hex with ⟨p, hp, hflag⟩
        rcases List.mem_cons.mp hp with hp | hp
        · exact absurd (hp ▸ hflag) ha
        · exact ⟨p, hp, hflag⟩
      rcases ih hex' with ⟨l₁, p, l₂, heq, hflag, hall, hfind⟩
      refine ⟨a :: l₁, p, l₂, by rw [heq]; rfl, hflag, ?_, ?_⟩
      · intro q hq
        rcases List.mem_cons.mp hq with hq | hq
        · exact hq ▸ (Bool.not_eq_true _).mp ha
        · exact hall q hq
      · simp [findHost, ha, hfind]

/-- Scanning a player list with no truthy host raises the `ValueError`. -/
lemma findHost_eq_error_of_none (ps : List Player)
    (hall : ∀ p ∈ ps, isHostTruthy p = false) :
    findHost ps = Except.error "ValueError: No host find" := by
  induction ps with
  | nil => rfl
  | cons a ps ih =>
    have ha : isHostTruthy a = false := hall a (List.mem_cons_self a ps)
    simp [findHost, ha]
    exact ih (fun p hp => hall p (List.mem_cons_of_mem a hp))

/-- C1: for every Room, `host` returns the first player whose `is_host`
flag is truthy when at least one exists, and raises the "no host" error
when none exists; being total into `Except`, it never returns null. -/
theorem host_first_or_raises (r : Room) :
    ((∃ p ∈ r.players, isHostTruthy p = true) →
      ∃ l₁ p l₂, r.players = l₁ ++ p :: l₂ ∧ isHostTruthy p = true ∧
        (∀ q ∈ l₁, isHostTruthy q = false) ∧ r.host = Except.ok p) ∧
    ((∀ p ∈ r.players, isHostTruthy p = false) →
      r.host = Except.error "ValueError: No host find") := by
  constructor
  · intro hex
    exact findHost_eq_ok_of_exists r.players hex
  · intro hall
    exact findHost_eq_error_of_none r.players hall

/-- Witness for C1 at concrete rooms: a singleton-host room succeeds and the
empty room raises. -/
theorem host_first_or_raises_witness :
    (∃ l₁ p l₂,
      ({ id := 2, name := "h", game := none, players := [hostP] } : Room).players
        = l₁ ++ p :: l₂ ∧ isHostTruthy p = true ∧
      (∀ q ∈ l₁, isHostTruthy q = false) ∧
      ({ id := 2, name := "h", game := none, players := [hostP] } : Room).host
        = Except.ok p) ∧
    emptyRoom.host = Except.error "ValueError: No host find" :=
  ⟨(host_first_or_raises _).1 ⟨hostP, by decide, by decide⟩,
   (host_first_or_raises emptyRoom).2 (by decide)⟩

/-- C2: for every Room, evaluating `is_full` raises (the body dereferences
the undefined attribute `seats`); it returns a boolean for no Room. -/
theorem is_full_always_raises (r : Room) :
    (∀ b : Bool, Room.is_full r ≠ Except.ok b) ∧
    Room.is_full r = Except.error "AttributeError: Room object has no attribute seats" :=
  ⟨fun _ h => Except.noConfusion h, rfl⟩

/-- C5: `Game.end` stamps `finish_time` with the current time, clears
`is_active`, stores the sentinel `-1` in `current_round`, and leaves every
other field of the game unchanged. -/
theorem end_sets_exactly (g : Game) (now : Nat) :
    (Game.end now g).finish_time = some now ∧
    (Game.end now g).is_active = false ∧
    (Game.end now g).current_round = some (RoundVal.int (-1)) ∧
    (Game.end now g).id = g.id ∧
    (Game.end now g).room_id = g.room_id ∧
    (Game.end now g).template = g.template ∧
    (Game.end now g).start_time = g.start_time ∧
    (Game.end now g).votes = g.votes :=
  ⟨rfl, rfl, rfl, rfl, rfl, rfl, rfl, rfl⟩

/-- C6: `validate` zeroes `vote_for` exactly when it lies outside `[1, 12]`
and leaves it unchanged inside; in particular `15 ↦ 0` and `7 ↦ 7`. -/
theorem validate_clamps (v : Vote) :
    (¬ (1 ≤ v.vote_for ∧ v.vote_for ≤ 12) → (Vote.validate v).vote_for = 0) ∧
    ((1 ≤ v.vote_for ∧ v.vote_for ≤ 12) → (Vote.validate v).vote_for = v.vote_for) ∧
    (v.vote_for = 15 → (Vote.validate v).vote_for = 0) ∧
    (v.vote_for = 7 → (Vote.validate v).vote_for = 7) := by
  refine ⟨?_, ?_, ?_, ?_⟩
  · intro h
    have hc : v.vote_for ≤ 0 ∨ v.vote_for ≥ 13 := by omega
    unfold Vote.validate
    rw [if_pos hc]
  · intro h
    have hc : ¬ (v.vote_for ≤ 0 ∨ v.vote_for ≥ 13) := by omega
    unfold Vote.validate
    rw [if_neg hc]
  · intro h
    have hc : v.vote_for ≤ 0 ∨ v.vote_for ≥ 13 := by omega
    unfold Vote.validate
    rw [if_pos hc]
  · intro h
    have hc : ¬ (v.vote_for ≤ 0 ∨ v.vote_for ≥ 13) := by omega
    unfold Vote.validate
    rw [if_neg hc, h]

/-- Witness for C6: a vote for seat 15 is zeroed, a vote for seat 7 kept. -/
theorem validate_clamps_witness :
    (Vote.validate { id := 1, game_id := none, player_id := none,
                     vote_for := 15, round := "r" }).vote_for = 0 ∧
    (Vote.validate { id := 2, game_id := none, player_id := none,
                     vote_for := 7, round := "r" }).vote_for = 7 :=
  ⟨(validate_clamps _).2.2.1 rfl, (validate_clamps _).2.2.2 rfl⟩

/-- C7: `validate` is idempotent on `vote_for`. -/
theorem validate_idempotent (v : Vote) :
    ((Vote.validate v).validate).vote_for = (Vote.validate v).vote_for := by
  unfold Vote.validate
  by_cases h : v.vote_for ≤ 0 ∨ v.vote_for ≥ 13
  · rw [if_pos h]
    norm_num
  · rw [if_neg h]
    rw [if_neg h]

/-- C9: after `end`, `status` is the truthy sentinel `-1`, not the
placeholder; the placeholder branch is taken exactly when `current_round`
is unset or falsy, and a truthy `current_round` is returned verbatim. -/
theorem status_after_end :
    (∀ (g : Game) (now : Nat),
      (Game.end now g).status = RoundVal.int (-1) ∧
      RoundVal.int (-1) ≠ awaitingInstruction) ∧
    (∀ g : Game, optRoundTruthy g.current_round = false →
      g.status = awaitingInstruction) ∧
    (∀ (g : Game) (r : RoundVal), g.current_round = some r →
      roundTruthy r = true → g.status = r) := by
  refine ⟨fun g now => ⟨?_, ?_⟩, fun g h => ?_, fun g r h1 h2 => ?_⟩
  · rfl
  · intro hcontra
    exact RoundVal.noConfusion hcontra
  · cases hc : g.current_round with
    | none => simp [Game.status, hc]
    | some r =>
      have h' : roundTruthy r = false := by rw [hc] at h; exact h
      simp [Game.status, hc, h']
  · simp [Game.status, h1, h2]

/-- Witness for C9: the fresh game `game0` shows the placeholder branch, and
ending it yields the `-1` sentinel. -/
theorem status_after_end_witness :
    (Game.end 5 game0).status = RoundVal.int (-1) ∧
    game0.status = awaitingInstruction :=
  ⟨(status_after_end.1 game0 5).1, status_after_end.2.1 game0 rfl⟩

/-- C10: a user with no associated players gets an `AttributeError` (the
null dereference of `first()`) from `is_host`, never the boolean `false`. -/
theorem user_is_host_raises_without_role (u : User) (h : u.role = []) :
    (∀ b : Bool, u.is_host ≠ Except.ok b) ∧
    u.is_host = Except.error "AttributeError: NoneType object has no attribute is_host" := by
  have hh : u.is_host = Except.error "AttributeError: NoneType object has no attribute is_host" := by
    unfold User.is_host
    rw [h]
    rfl
  exact ⟨fun b hb => by rw [hh] at hb; exact Except.noConfusion hb, hh⟩

/-- Witness for C10 at the player-less user `user0`. -/
theorem user_is_host_raises_without_role_witness :
    User.is_host user0
      = Except.error "AttributeError: NoneType object has no attribute is_host" :=
  (user_is_host_raises_without_role user0 rfl).2

/-- Removing occupied seats one by one along the player list computes the
set difference with the collected occupied seats. -/
lemma foldl_erase_seats (ps : List Player) (init : Finset Int) :
    ps.foldl
      (fun seats p =>
        match p.seat with
        | some s => if s ≠ 0 then seats.erase s else seats
        | none => seats)
      init
    = init \ (ps.filterMap
        (fun p =>
          match p.seat with
          | some s => if s ≠ 0 then some s else none
          | none => none)).toFinset := by
  induction ps generalizing init with
  | nil => simp
  | cons a ps ih =>
    rw [List.foldl_cons, ih]
    cases ha : a.seat with
    | none => simp [ha]
    | some s =>
      by_cases hs : s = 0
      · simp [ha, hs]
      · simp only [ha, hs, ne_eq, not_false_iff, if_true, List.filterMap_cons,
          List.toFinset_cons, Finset.erase_eq, Finset.insert_eq]
        rw [sdiff_sdiff_left]
        rfl

/-- C3: assuming the data-model seat range (every occupied seat lies in
1..12), `available_seats` and the occupied seats of seated normal players
are disjoint and partition `{1..12}`. -/
theorem available_seats_partition (r : Room)
    (hrange : r.occupiedSeats ⊆ Finset.Icc (1:Int) 12) :
    Disjoint r.available_seats r.occupiedSeats ∧
    r.available_seats ∪ r.occupiedSeats = Finset.Icc (1:Int) 12 := by
  have key : r.available_seats = Finset.Icc (1:Int) 12 \ r.occupiedSeats :=
    foldl_erase_seats r.normal_players (Finset.Icc 1 12)
  constructor
  · rw [key]
    exact Finset.sdiff_disjoint
  · rw [key, Finset.sdiff_union_self_eq_union]
    exact Finset.union_eq_left.mpr hrange

/-- Witness for C3 at the concrete room seated at 1, 3 and 5. -/
theorem available_seats_partition_witness :
    Disjoint room135.available_seats room135.occupiedSeats ∧
    room135.available_seats ∪ room135.occupiedSeats = Finset.Icc (1:Int) 12 :=
  available_seats_partition room135 (by decide)

/-- C8: at the room seated exactly at 1, 3 and 5, `available_seats` is
`{2,4,6,7,8,9,10,11,12}` as claimed, but `is_full` raises the
`AttributeError` instead of evaluating to `false`. -/
theorem room135_example :
    room135.available_seats = ({2, 4, 6, 7, 8, 9, 10, 11, 12} : Finset Int) ∧
    Room.is_full room135
      = Except.error "AttributeError: Room object has no attribute seats" ∧
    (∀ b : Bool, Room.is_full room135 ≠ Except.ok b) :=
  ⟨by decide, rfl, fun _ h => Except.noConfusion h⟩

/-- The vote-results loop succeeds when every listed player has a vote for
the round, votes carry their owner's id, and the table lookup resolves each
listed player; each emitted pair carries the player's seat and the
`vote_for` of every (hence, under uniqueness, the) matching vote. -/
lemma viewVoteResultsAux_ok (db : List Player) (rn : String) (ps : List Player)
    (hex : ∀ p ∈ ps, ∃ v ∈ p.votes, v.round = rn)
    (huniq : ∀ p ∈ ps, ∀ v ∈ p.votes, ∀ w ∈ p.votes,
      v.round = rn → w.round = rn → v = w)
    (hpid : ∀ p ∈ ps, ∀ v ∈ p.votes, v.player_id = some p.id)
    (hdb : ∀ p ∈ ps, db.find? (fun q => (some p.id : Option Int) == some q.id) = some p) :
    ∃ l, viewVoteResultsAux db rn ps = Except.ok l ∧
      List.Forall₂ (fun p res => res.vote_from = p.seat ∧
        ∀ v ∈ p.votes, v.round = rn → res.vote_for = v.vote_for) ps l := by
  induction ps with
  | nil => exact ⟨[], rfl, List.Forall₂.nil⟩
  | cons p ps ih =>
    have hmem : p ∈ p :: ps := List.mem_cons_self p ps
    rcases hex p hmem with ⟨v₀, hv₀, hr₀⟩
    have hsome : (p.votes.find? (fun v => v.round == rn)).isSome := by
      rw [List.find?_isSome]
      exact ⟨v₀, hv₀, by simp [hr₀]⟩
    rcases Option.isSome_iff_exists.mp hsome with ⟨v, hfind⟩
    have hv : v ∈ p.votes := List.mem_of_find?_eq_some hfind
    have hvr : v.round = rn := by
      have := List.find?_some hfind
      simpa using this
    have hvf : Vote.vote_from db v = Except.ok p.seat := by
      unfold Vote.vote_from
      have hpidv : v.player_id = some p.id := hpid p hmem v hv
      rw [hpidv, hdb p hmem]
    rcases ih (fun q hq => hex q (List.mem_cons_of_mem p hq))
        (fun q hq => huniq q (List.mem_cons_of_mem p hq))
        (fun q hq => hpid q (List.mem_cons_of_mem p hq))
        (fun q hq => hdb q (List.mem_cons_of_mem p hq)) with ⟨rest, hrest, hfa⟩
    refine ⟨{ vote_from := p.seat, vote_for := v.vote_for } :: rest, ?_, ?_⟩
    · simp [viewVoteResultsAux, hfind, hvf, hrest]
    · refine List.Forall₂.cons ⟨rfl, ?_⟩ hfa
      intro w hw hwr
      exact congrArg Vote.vote_for (huniq p hmem v hv w hw hvr hwr)

/-- The vote-results loop raises when some listed player has no vote for
the round. -/
lemma viewVoteResultsAux_error (db : List Player) (rn : String) (ps : List Player)
    (h : ∃ p ∈ ps, ∀ v ∈ p.votes, v.round ≠ rn) :
    ∃ e, viewVoteResultsAux db rn ps = Except.error e := by
  induction ps with
  | nil => simp at h
  | cons p ps ih =>
    cases hfind : p.votes.find? (fun v => v.round == rn) with
    | none =>
      exact ⟨"AttributeError: NoneType object has no attribute vote_from",
        by simp [viewVoteResultsAux, hfind]⟩
    | some v =>
      have hv : v ∈ p.votes := List.mem_of_find?_eq_some hfind
      have hvr : v.round = rn := by
        have := List.find?_some hfind
        simpa using this
      rcases h with ⟨q, hq, hnone⟩
      rcases List.mem_cons.mp hq with hq | hq
      · subst hq
        exact absurd hvr (hnone v hv)
      · cases hvf : Vote.vote_from db v with
        | error e => exact ⟨e, by simp [viewVoteResultsAux, hfind, hvf]⟩
        | ok vf =>
          rcases ih ⟨q, hq, hnone⟩ with ⟨e, he⟩
          exact ⟨e, by simp [viewVoteResultsAux, hfind, hvf, he]⟩

/-- A vote cast by player 11 (seat 1) for seat 2 in round "round1". -/
def vote1 : Vote :=
  { id := 1, game_id := some 1, player_id := some 11, vote_for := 2, round := "round1" }

/-- A vote cast by player 12 (seat 2) for seat 1 in round "round1". -/
def vote2 : Vote :=
  { id := 2, game_id := some 1, player_id := some 12, vote_for := 1, round := "round1" }

/-- Seated player 11 holding `vote1`. -/
def pl1 : Player := mkSeated 11 1 [vote1]

/-- Seated player 12 holding `vote2`. -/
def pl2 : Player := mkSeated 12 2 [vote2]

/-- A room with the two seated voters of the running example. -/
def voteRoom : Room := { id := 4, name := "v", game := none, players := [pl1, pl2] }

/-- The global player table of the running example. -/
def voteDb : List Player := [pl1, pl2]

/-- C4: when every seated player has exactly one vote for the round, votes
carry their owner's id and the global table resolves each seated player,
`view_vote_results` returns one pair per seated player with `vote_from` the
player's seat and `vote_for` their recorded choice; when some seated player
has no vote for the round, it raises. -/
theorem view_vote_results_spec (db : List Player) (r : Room) (rn : String) :
    ((∀ p ∈ r.seated_players, ∃ v ∈ p.votes, v.round = rn) →
     (∀ p ∈ r.seated_players, ∀ v ∈ p.votes, ∀ w ∈ p.votes,
        v.round = rn → w.round = rn → v = w) →
     (∀ p ∈ r.seated_players, ∀ v ∈ p.votes, v.player_id = some p.id) →
     (∀ p ∈ r.seated_players,
        db.find? (fun q => (some p.id : Option Int) == some q.id) = some p) →
     ∃ l, Room.view_vote_results db r rn = Except.ok l ∧
       List.Forall₂ (fun p res => res.vote_from = p.seat ∧
         ∀ v ∈ p.votes, v.round = rn → res.vote_for = v.vote_for)
         r.seated_players l) ∧
    ((∃ p ∈ r.seated_players, ∀ v ∈ p.votes, v.round ≠ rn) →
     ∃ e, Room.view_vote_results db r rn = Except.error e) :=
  ⟨fun hex huniq hpid hdb =>
      viewVoteResultsAux_ok db rn r.seated_players hex huniq hpid hdb,
   fun h => viewVoteResultsAux_error db rn r.seated_players h⟩

/-- Witness for C4: the two-voter example room yields its two pairs. -/
theorem view_vote_results_spec_witness :
    ∃ l, Room.view_vote_results voteDb voteRoom "round1" = Except.ok l ∧
      List.Forall₂ (fun p res => res.vote_from = p.seat ∧
        ∀ v ∈ p.votes, v.round = "round1" → res.vote_for = v.vote_for)
        voteRoom.seated_players l :=
  (view_vote_results_spec voteDb voteRoom "round1").1
    (by decide) (by decide) (by decide) (by decide)
